import Mathlib

/-!
Verification development for the LegiTrack normalization and enrichment
layer (utils/transforms.py). The Python module is shallowly embedded:
Python values that flow through the transforms are modelled by the
inductive `Value`; Python dictionaries are association lists with
first-match lookup (Python dicts never hold a key twice, so first-match
lookup is exact); code that can raise is modelled in the `Except PyErr`
monad, and the try/except wrappers of the source become total functions
on top of it. The external dateutil parser and the pandas Timestamp are
modelled by `dateutilParse` and `PDate` below.
-/

/-- Python exception kinds that the embedded code can raise. -/
inductive PyErr where
  | valueError
  | typeError
  | attributeError
deriving DecidableEq, Repr

/-- A proleptic Gregorian calendar date, the model of the `date` part of a
pandas Timestamp or a Python datetime/date (time of day is dropped: the
transforms only ever use `.date()`). -/
structure PDate where
  year : Nat
  month : Nat
  day : Nat
deriving DecidableEq, Repr

mutual
/-- Model of the Python values that flow through utils/transforms.py:
None, int, str, dict, list, and date-like objects (pandas Timestamp,
datetime and date are collapsed into one constructor `ts`, since the
transforms treat all three identically through `.date()`). -/
inductive Value where
  | null
  | int (n : Int)
  | str (s : String)
  | dict (entries : Fields)
  | list (elems : Elems)
  | ts (d : PDate)
deriving DecidableEq, Repr

/-- The entries of a Python dict with string keys, in insertion order. -/
inductive Fields where
  | nil
  | cons (key : String) (value : Value) (rest : Fields)
deriving DecidableEq, Repr

/-- The elements of a Python list value. -/
inductive Elems where
  | nil
  | cons (value : Value) (rest : Elems)
deriving DecidableEq, Repr
end

/-- A raw record: a Python dict with string keys. -/
abbrev Record := Fields

/-- Build a dict entry sequence from a Lean list of key/value pairs. -/
def Fields.ofList : List (String × Value) → Fields
  | [] => .nil
  | (k, v) :: rest => .cons k v (Fields.ofList rest)

/-- First-match lookup of a key among dict entries, `none` when absent. -/
def Fields.lookup : Fields → String → Option Value
  | .nil, _ => none
  | .cons k v rest, key => if k == key then some v else rest.lookup key

/-- Whether a dict has no entries. -/
def Fields.isEmpty : Fields → Bool
  | .nil => true
  | .cons _ _ _ => false

/-- Whether a list value has no elements. -/
def Elems.isEmpty : Elems → Bool
  | .nil => true
  | .cons _ _ => false

/-- Python truthiness of a modelled value (`bool(v)`). -/
def truthy : Value → Bool
  | .null => false
  | .int n => n != 0
  | .str s => s != ""
  | .dict entries => !entries.isEmpty
  | .list elems => !elems.isEmpty
  | .ts _ => true

/-- Python `a or b`: the first operand when truthy, otherwise the second. -/
def pyOr (a b : Value) : Value :=
  if truthy a then a else b

/-- Python `p.get(k)` on a dict: the stored value, or None when absent. -/
def rget (p : Record) (k : String) : Value :=
  (p.lookup k).getD .null

/-- Render a PDate in ISO form with zero padding, as `str` does for the
date part of a Timestamp. -/
def PDate.toIso (d : PDate) : String :=
  let pad2 := fun (n : Nat) => if n < 10 then "0" ++ toString n else toString n
  toString d.year ++ "-" ++ pad2 d.month ++ "-" ++ pad2 d.day

/-- Python `str(v)` for the modelled values. The rendering of containers
is abbreviated (no claim ever renders a dict or a list). -/
def pyStr : Value → String
  | .null => "None"
  | .int n => toString n
  | .str s => s
  | .dict _ => "<dict>"
  | .list _ => "<list>"
  | .ts d => d.toIso

/-- Decimal digits to a number, `none` when empty or not all digits. -/
def digitsToNat? (cs : List Char) : Option Nat :=
  if cs.isEmpty || !cs.all Char.isDigit then none
  else some (cs.foldl (fun acc c => acc * 10 + (c.toNat - 48)) 0)

/-- Python `int(v)`: identity on ints, decimal string parsing on strings
(ValueError when the string is not an optionally signed decimal numeral),
TypeError on None, dicts, lists and date-likes. -/
def pyInt : Value → Except PyErr Int
  | .int n => .ok n
  | .str s =>
      match s.data with
      | '-' :: rest =>
          match digitsToNat? rest with
          | some n => .ok (-(n : Int))
          | none => .error .valueError
      | cs =>
          match digitsToNat? cs with
          | some n => .ok (n : Int)
          | none => .error .valueError
  | _ => .error .typeError

deriving instance DecidableEq for Except

/-! ## DateCoercion: parse_date and dias_desde -/

/-- Number of days in a month of the proleptic Gregorian calendar. -/
def daysInMonth (y m : Nat) : Nat :=
  let leap := (y % 4 == 0 && y % 100 != 0) || y % 400 == 0
  if m == 2 then (if leap then 29 else 28)
  else if m == 4 || m == 6 || m == 9 || m == 11 then 30
  else 31

/-- Days of the proleptic Gregorian calendar that precede January 1 of
year `y` (year 1 gives 0). -/
def daysBeforeYear (y : Nat) : Nat :=
  365 * (y - 1) + (y - 1) / 4 + (y - 1) / 400 - (y - 1) / 100

/-- Days that precede the first day of month `m` within year `y`. -/
def daysBeforeMonth (y m : Nat) : Nat :=
  let rec go : Nat → Nat
    | 0 => 0
    | k + 1 => go k + daysInMonth y (k + 1)
  go (m - 1)

/-- Rata die ordinal of a date: the number of a day in the proleptic
Gregorian calendar, so that differences of ordinals are exactly the
`.days` of a Python date subtraction. -/
def PDate.rataDie (d : PDate) : Int :=
  (daysBeforeYear d.year + daysBeforeMonth d.year d.month + d.day : Nat)

/-- Take the characters before the first `T` or space, the date part of
an ISO date-time string. -/
def takeUntilSep : List Char → List Char
  | [] => []
  | c :: rest => if c == 'T' || c == ' ' then [] else c :: takeUntilSep rest

/-- Split a character list at every occurrence of a separator. -/
def splitOnChar (sep : Char) : List Char → List (List Char)
  | [] => [[]]
  | c :: rest =>
      let r := splitOnChar sep rest
      if c == sep then [] :: r
      else
        match r with
        | [] => [[c]]
        | h :: t => (c :: h) :: t

/-- Model of dateutil.parser.parse restricted to ISO dates
`YYYY-MM-DD`, with an optional time part after `T` or a space that is
ignored (time of day is dropped from the model). Any string outside this
grammar is a parse failure. The real dateutil accepts more formats; no
claim depends on the extra leniency, and theorems that quantify over
parser outcomes do so through this model. -/
def dateutilParse (s : String) : Except PyErr PDate :=
  match (splitOnChar '-' (takeUntilSep s.data)).map digitsToNat? with
  | [some y, some mo, some dd] =>
      if 1 ≤ mo && mo ≤ 12 && 1 ≤ dd && dd ≤ daysInMonth y mo && y ≥ 1 then
        .ok ⟨y, mo, dd⟩
      else
        .error .valueError
  | _ => .error .valueError

/-- Embedding of parse_date (utils/transforms.py): returns None for None
or the empty string, otherwise attempts `dateparser.parse(str(value))`
inside a try/except that turns every failure into None. -/
def parse_date (value : Value) : Option PDate :=
  if value = .null ∨ value = .str "" then none
  else
    match dateutilParse (pyStr value) with
    | .ok d => some d
    | .error _ => none

/-- Embedding of dias_desde (utils/transforms.py). The wall-clock call
`date.today()` is passed explicitly as `hoje`; date-like inputs use their
date directly, anything else goes through parse_date, and `None` is
returned for None, the empty string, or an unparsable value. The result
is `(hoje - d).days`, possibly negative. -/
def dias_desde (hoje : PDate) (dt : Value) : Option Int :=
  if dt = .null ∨ dt = .str "" then none
  else
    match dt with
    | .ts d => some (hoje.rataDie - d.rataDie)
    | _ =>
        match parse_date dt with
        | none => none
        | some d => some (hoje.rataDie - d.rataDie)

/-! ## FieldResolver: _safe_get -/

/-- Python `cur.get(k)` on an arbitrary value: dict lookup when `cur` is
a dict (None for a missing key), AttributeError otherwise. -/
def vget : Value → String → Except PyErr Value
  | .dict entries, k => .ok ((entries.lookup k).getD .null)
  | _, _ => .error .attributeError

/-- The loop body of _safe_get before its try/except: walk the keys,
returning the default as soon as the current value is None, and letting
a lookup on a non-dict raise. After the loop the final value is returned
unless it is None, in which case the default is returned. -/
def safeGetAux (cur : Value) (keys : List String) (dflt : Value) :
    Except PyErr Value :=
  match keys with
  | [] => .ok (if cur = .null then dflt else cur)
  | k :: ks =>
      if cur = .null then .ok dflt
      else
        match vget cur k with
        | .ok next => safeGetAux next ks dflt
        | .error e => .error e

/-- Embedding of _safe_get (utils/transforms.py): the loop of
`safeGetAux` wrapped in the try/except that turns any exception into the
default. -/
def safe_get (d : Value) (keys : List String) (dflt : Value) : Value :=
  match safeGetAux d keys dflt with
  | .ok v => v
  | .error _ => dflt

example : safe_get (.dict (Fields.ofList [("a", .dict (Fields.ofList [("b", .int 2)]))])) ["a", "b"] .null = .int 2 := by decide
example : safe_get (.dict (Fields.ofList [("a", .int 1)])) ["a", "b"] (.str "d") = .str "d" := by decide
example : safe_get (.str "notadict") ["a"] (.str "d") = .str "d" := by decide

/-! ## RecordNormalizer: df_proposicoes -/

/-- The id fallback chain of df_proposicoes: `p.get("id") or
p.get("idProposicao")`. -/
def resolveId (p : Record) : Value :=
  pyOr (rget p "id") (rget p "idProposicao")

/-- The type-code fallback chain: `p.get("siglaTipo") or
p.get("sigla_tipo")`. -/
def resolveSiglaTipo (p : Record) : Value :=
  pyOr (rget p "siglaTipo") (rget p "sigla_tipo")

/-- The number fallback chain: `p.get("numero") or p.get("numProposicao")
or p.get("num")`. -/
def resolveNumero (p : Record) : Value :=
  pyOr (rget p "numero") (pyOr (rget p "numProposicao") (rget p "num"))

/-- The year fallback chain: `p.get("ano") or p.get("anoProposicao")`. -/
def resolveAno (p : Record) : Value :=
  pyOr (rget p "ano") (rget p "anoProposicao")

/-- The uri fallback chain: `p.get("uri") or p.get("uriProposicao")`. -/
def resolveUri (p : Record) : Value :=
  pyOr (rget p "uri") (rget p "uriProposicao")

/-- The status-block fallback chain, ending in an empty dict:
`p.get("statusProposicao") or p.get("status_proposicao") or
p.get("ultimoStatus") or {}`. -/
def resolveStatus (p : Record) : Value :=
  pyOr (rget p "statusProposicao")
    (pyOr (rget p "status_proposicao")
      (pyOr (rget p "ultimoStatus") (.dict .nil)))

/-- The situation fallback chain over the status block. -/
def resolveSituacao (status : Value) : Value :=
  pyOr (safe_get status ["descricaoSituacao"] .null)
    (pyOr (safe_get status ["situacao"] .null)
      (safe_get status ["descricaoTramitacao"] .null))

/-- The current-stage fallback chain over the status block. -/
def resolveTramitacao (status : Value) : Value :=
  pyOr (safe_get status ["descricaoTramitacao"] .null)
    (safe_get status ["apreciacao"] .null)

/-- The raw status-timestamp fallback chain over the status block. -/
def resolveDataStatusRaw (status : Value) : Value :=
  pyOr (safe_get status ["dataHora"] .null)
    (pyOr (safe_get status ["data"] .null)
      (safe_get status ["dataUltimoDespacho"] .null))

/-- The authors-reference fallback chain: `p.get("uriAutores") or
p.get("uri_autores")`. -/
def resolveUriAutores (p : Record) : Value :=
  pyOr (rget p "uriAutores") (rget p "uri_autores")

/-- The short-summary chain `p.get("ementa") or ""`. -/
def resolveEmenta (p : Record) : Value :=
  pyOr (rget p "ementa") (.str "")

/-- The detailed-summary chain `p.get("ementaDetalhada") or
p.get("ementa_detalhada") or ""`. -/
def resolveEmentaDet (p : Record) : Value :=
  pyOr (rget p "ementaDetalhada") (pyOr (rget p "ementa_detalhada") (.str ""))

/-- Base of the fixed-pattern permalink built from the id. -/
def fichaUrlBase : String :=
  "https://www.camara.leg.br/proposicoesWeb/fichadetramitacao?idProposicao="

/-- The link computation of df_proposicoes: the fixed-pattern permalink
embedding the id when the id is truthy, otherwise `uri or ""`. -/
def resolveLink (id_prop uri : Value) : Value :=
  if truthy id_prop then .str (fichaUrlBase ++ pyStr id_prop)
  else pyOr uri (.str "")

/-- The label computation of df_proposicoes: the formatted string when
type code, number and year are all truthy, otherwise None. -/
def resolveRotulo (sigla_tipo numero ano : Value) : Value :=
  if truthy sigla_tipo && truthy numero && truthy ano then
    .str (pyStr sigla_tipo ++ " " ++ pyStr numero ++ "/" ++ pyStr ano)
  else .null

/-- One row of the standardized DataFrame, with the twelve columns that
df_proposicoes produces. `data_status` holds the parsed timestamp. -/
structure Row where
  id : Value
  siglaTipo : Value
  numero : Value
  ano : Value
  rotulo : Value
  ementa : Value
  situacao : Value
  tramitacao_atual : Value
  data_status : Option PDate
  uri : Value
  uriAutores : Value
  link : Value
deriving DecidableEq, Repr

/-- The id coercion of the row literal, `int(id_prop) if id_prop is not
None else None`: None stays None, anything else goes through `int`,
whose failure is not caught anywhere in df_proposicoes. -/
def coerceId (idv : Value) : Except PyErr Value :=
  if idv = Value.null then .ok .null
  else
    match pyInt idv with
    | .ok n => .ok (.int n)
    | .error e => .error e

/-- The body of the per-record loop of df_proposicoes. The only
operation that can raise is the coercion `int(id_prop)` in the row
literal; everything else degrades to None or a default. -/
def procRow (p : Record) : Except PyErr Row :=
  match coerceId (resolveId p) with
  | .error e => .error e
  | .ok idVal =>
      .ok ⟨idVal, resolveSiglaTipo p, resolveNumero p, resolveAno p,
           resolveRotulo (resolveSiglaTipo p) (resolveNumero p) (resolveAno p),
           pyOr (resolveEmenta p) (resolveEmentaDet p),
           resolveSituacao (resolveStatus p),
           resolveTramitacao (resolveStatus p),
           parse_date (resolveDataStatusRaw (resolveStatus p)),
           resolveUri p, resolveUriAutores p,
           resolveLink (resolveId p) (resolveUri p)⟩

/-- The canonical column set of the standardized DataFrame, in the order
of the row dict literal (and of the explicit empty-frame column list). -/
def canonicalColumns : List String :=
  ["id", "siglaTipo", "numero", "ano", "rotulo", "ementa", "situacao",
   "tramitacao_atual", "data_status", "uri", "uriAutores", "link"]

/-- The standardized DataFrame: its column names and its rows. -/
structure DataFrame where
  columns : List String
  rows : List Row
deriving DecidableEq, Repr

/-- The final `df["data_status"].apply(...)` pass of df_proposicoes: a
Timestamp is kept as is, anything else is re-parsed (None stays None). -/
def fixDataStatus (r : Row) : Row :=
  let ds := match r.data_status with
    | some t => some t
    | none => parse_date .null
  ⟨r.id, r.siglaTipo, r.numero, r.ano, r.rotulo, r.ementa, r.situacao,
   r.tramitacao_atual, ds, r.uri, r.uriAutores, r.link⟩

/-- The record loop of df_proposicoes: one row per record, in input
order, stopping at the first record whose processing raises. -/
def mapRows : List Record → Except PyErr (List Row)
  | [] => .ok []
  | p :: rest =>
      match procRow p with
      | .error e => .error e
      | .ok r =>
          match mapRows rest with
          | .error e => .error e
          | .ok rs => .ok (r :: rs)

/-- Embedding of df_proposicoes (utils/transforms.py): one row per input
record through `procRow`, in input order; an exception in any record
propagates out of the loop. The empty input yields the explicitly
constructed empty frame with the full canonical column set, and a
non-empty input yields a frame whose columns are the row-dict keys,
which are the same canonical columns. -/
def df_proposicoes (registros : List Record) : Except PyErr DataFrame :=
  match mapRows registros with
  | .error e => .error e
  | .ok linhas => .ok ⟨canonicalColumns, linhas.map fixDataStatus⟩

/-! ## AuthorResolver: extrair_autor_principal -/

/-- The standardized principal-author dict returned by
extrair_autor_principal. -/
structure AuthorSummary where
  nome : Value
  partido : Value
  uf : Value
  tipoAutor : Value
deriving DecidableEq, Repr

/-- Whether a character list begins with another character list. -/
def beginsWith : List Char → List Char → Bool
  | _, [] => true
  | [], _ :: _ => false
  | a :: as, b :: bs => a == b && beginsWith as bs

/-- Whether a needle occurs as a contiguous run inside a haystack. -/
def containsRun (needle : List Char) : List Char → Bool
  | [] => needle.isEmpty
  | c :: rest => beginsWith (c :: rest) needle || containsRun needle rest

/-- Python substring containment `needle in hay` for strings. -/
def strContains (hay needle : String) : Bool :=
  containsRun needle.data hay.data

/-- Lower-case a string, folding ASCII letters (the model of Python
`str.lower`, which also folds non-ASCII letters; the roles that matter
here differ only in ASCII letters). -/
def lowerStr (s : String) : String :=
  String.mk (s.data.map Char.toLower)

/-- The role normalization `(a.get("tipo") or "").lower()`: lower-cases a
string role, and raises AttributeError when the truthy role value is not
a string. -/
def tipoLowered (a : Record) : Except PyErr String :=
  match pyOr (rget a "tipo") (.str "") with
  | .str s => .ok (lowerStr s)
  | _ => .error .attributeError

/-- The scan loop of extrair_autor_principal: the first author whose
lower-cased role contains "deputado", or none. -/
def findDeputado : List Record → Except PyErr (Option Record)
  | [] => .ok none
  | a :: rest =>
      match tipoLowered a with
      | .error e => .error e
      | .ok t =>
          if strContains t "deputado" then .ok (some a) else findDeputado rest

/-- The per-field fallback chains applied to the chosen author record. -/
def camposAutor (autor : Record) : AuthorSummary :=
  ⟨pyOr (rget autor "nome")
     (pyOr (rget autor "nomeAutor") (rget autor "nomeAutorPrimeiroSignatario")),
   pyOr (rget autor "siglaPartido")
     (pyOr (rget autor "siglaPartidoAutor")
       (pyOr (rget autor "sigla_partido") (rget autor "partido"))),
   pyOr (rget autor "siglaUf")
     (pyOr (rget autor "siglaUF")
       (pyOr (rget autor "uf")
         (pyOr (rget autor "ufAutor") (rget autor "siglaUfAutor")))),
   rget autor "tipo"⟩

/-- Embedding of extrair_autor_principal (utils/transforms.py): all-null
summary for the empty payload; otherwise the first role-matching author,
falling back to the first author of the list (`deputado or
autores_payload[0]`, where an empty found dict would also fall back), and
the per-field chains applied to the chosen record. -/
def extrair_autor_principal (autores_payload : List Record) :
    Except PyErr AuthorSummary :=
  match autores_payload with
  | [] => .ok ⟨.null, .null, .null, .null⟩
  | a0 :: _ =>
      match findDeputado autores_payload with
      | .error e => .error e
      | .ok dep =>
          let autor :=
            match dep with
            | some d => if d.isEmpty then a0 else d
            | none => a0
          .ok (camposAutor autor)

example :
    extrair_autor_principal
      [Fields.ofList [("tipo", .str "Comissão"), ("nome", .str "X")],
       Fields.ofList [("tipo", .str "Deputado"), ("nome", .str "Y")]] =
    .ok ⟨.str "Y", .null, .null, .str "Deputado"⟩ := by decide

/-! ## Helper lemmas and spec-side definitions -/

theorem pyOr_truthy {a : Value} (b : Value) (h : truthy a = true) :
    pyOr a b = a := by
  simp [pyOr, h]

theorem pyOr_falsy {a : Value} (b : Value) (h : truthy a = false) :
    pyOr a b = b := by
  simp [pyOr, h]

theorem truthy_null : truthy Value.null = false := rfl

theorem pyOr_null_left (b : Value) : pyOr Value.null b = b := rfl

/-- The first-present-of combinator that the spec describes: the value of
the first truthy candidate, and the value of the last candidate when no
candidate is truthy. An empty string, a zero or an empty container is
skipped exactly like a missing field. -/
def firstTruthy : List Value → Value
  | [] => .null
  | [v] => v
  | v :: rest => if truthy v then v else firstTruthy rest

theorem firstTruthy_cons_truthy {v : Value} (rest : List Value)
    (h : truthy v = true) : firstTruthy (v :: rest) = v := by
  cases rest <;> simp [firstTruthy, h]

theorem firstTruthy_cons_falsy {v : Value} {rest : List Value}
    (h : truthy v = false) (hne : rest ≠ []) :
    firstTruthy (v :: rest) = firstTruthy rest := by
  cases rest with
  | nil => exact absurd rfl hne
  | cons b bs => simp [firstTruthy, h]

theorem firstTruthy_pair (a b : Value) : firstTruthy [a, b] = pyOr a b := by
  simp [firstTruthy, pyOr]

theorem firstTruthy_triple (a b c : Value) :
    firstTruthy [a, b, c] = pyOr a (pyOr b c) := by
  simp [firstTruthy, pyOr]

theorem firstTruthy_quad (a b c d : Value) :
    firstTruthy [a, b, c, d] = pyOr a (pyOr b (pyOr c d)) := by
  simp [firstTruthy, pyOr]

/-- Looking up a single key with _safe_get on a dict is a plain get. -/
theorem safe_get_dict_single (m : Fields) (k : String) :
    safe_get (.dict m) [k] .null = rget m k := by
  show (if rget m k = Value.null then Value.null else rget m k) = rget m k
  split
  · next h => exact h.symm
  · rfl

/-- Spec-side chained lookup, written after the words of the spec: walk
the keys; at each step, if the current value is None or the lookup fails
(missing key or non-mapping current value), return the caller-specified
default immediately; a final None also resolves to the default. -/
def specChainGet (container : Value) (keys : List String) (dflt : Value) :
    Value :=
  match keys with
  | [] => if container = .null then dflt else container
  | k :: ks =>
      match container with
      | .dict entries =>
          match entries.lookup k with
          | some v => specChainGet v ks dflt
          | none => dflt
      | _ => dflt

theorem safe_get_null_eq (ks : List String) (dflt : Value) :
    safe_get .null ks dflt = dflt := by
  cases ks <;> rfl

/-- Claim C9: for every container, key sequence and default, _safe_get
never raises and walks the chain as the spec describes: a None at any
step, a missing key, or a lookup on a non-mapping value resolves to the
caller-specified default (the first conjunct is a full refinement against
the spec-worded `specChainGet`; the second states that the wrapped loop
returns the default whenever its body raises). The function is a pure
Lean function, so it has no side effects. -/
theorem C9_safe_chain_get_total :
    (∀ d ks dflt, safe_get d ks dflt = specChainGet d ks dflt) ∧
    (∀ d ks dflt e, safeGetAux d ks dflt = .error e →
        safe_get d ks dflt = dflt) := by
  constructor
  · intro d ks dflt
    induction ks generalizing d with
    | nil => rfl
    | cons k ks ih =>
      cases d with
      | dict m =>
        have step : safe_get (.dict m) (k :: ks) dflt
            = safe_get ((m.lookup k).getD .null) ks dflt := rfl
        rw [step]
        cases h : m.lookup k with
        | some v => simpa [specChainGet, h] using ih v
        | none => simp [specChainGet, h, safe_get_null_eq]
      | null => rfl
      | int n => rfl
      | str s => rfl
      | list l => rfl
      | ts t => rfl
  · intro d ks dflt e h
    simp [safe_get, h]

/-- Witness for C9: the raising branch at a concrete input (a chained
lookup on a non-mapping value returns the default). -/
theorem C9_safe_chain_get_total_witness :
    safe_get (.str "x") ["a"] (.str "dflt") = .str "dflt" :=
  C9_safe_chain_get_total.2 (.str "x") ["a"] (.str "dflt")
    .attributeError (by decide)

/-- Claim C1 (code bug): df_proposicoes does preserve order, produce one
row per record and return the fully-columned empty frame on empty input,
but per-record resolution is not exception-free: the unguarded
`int(id_prop)` raises ValueError on a record whose id is a truthy
non-numeric string, halting the whole batch, so the record after it is
never processed. -/
theorem C1_normalize_halts_on_noninteger_id :
    df_proposicoes [] = .ok ⟨canonicalColumns, []⟩ ∧
    df_proposicoes [Fields.ofList [("id", .int 7)]] =
      .ok ⟨canonicalColumns,
        [⟨.int 7, .null, .null, .null, .null, .str "", .null, .null, none,
          .null, .null, .str (fichaUrlBase ++ "7")⟩]⟩ ∧
    df_proposicoes [Fields.ofList [("id", .str "abc")],
                    Fields.ofList [("id", .int 7)]] =
      .error .valueError := by
  refine ⟨by decide, by decide, by decide⟩

/-- Claim C6: parse_date returns None (never raises) for None, the empty
string, and every input whose string rendering the date parser rejects;
dias_desde on an unparsable value is also None for every reference date. -/
theorem C6_parse_failure_silent :
    parse_date .null = none ∧
    parse_date (.str "") = none ∧
    (∀ v e, dateutilParse (pyStr v) = .error e → parse_date v = none) ∧
    parse_date (.str "not-a-date") = none ∧
    (∀ hoje, dias_desde hoje (.str "not-a-date") = none) := by
  refine ⟨rfl, rfl, ?_, by decide, fun hoje => rfl⟩
  intro v e h
  by_cases hv : v = .null ∨ v = .str ""
  · simp [parse_date, hv]
  · simp [parse_date, hv, h]

/-- Witness for C6: the parse-failure conjunct applied at a concrete
unparsable input. -/
theorem C6_parse_failure_silent_witness :
    parse_date (.str "nope") = none :=
  C6_parse_failure_silent.2.2.1 (.str "nope") .valueError (by decide)

/-- Claim C7: dias_desde returns None for None and the empty string;
on a date-like value it returns the day difference `(hoje - d).days` as a
possibly negative integer; on any other parsable value it returns the
same difference computed on the parsed date; and on the fixed reference
date 2024-01-15 the parse of "2024-01-10" gives 5 days. -/
theorem C7_days_since_difference :
    (∀ hoje, dias_desde hoje .null = none ∧ dias_desde hoje (.str "") = none) ∧
    (∀ hoje d, dias_desde hoje (.ts d) = some (hoje.rataDie - d.rataDie)) ∧
    (∀ hoje v d, (∀ d0, v ≠ .ts d0) → parse_date v = some d →
        dias_desde hoje v = some (hoje.rataDie - d.rataDie)) ∧
    parse_date (.str "2024-01-10") = some ⟨2024, 1, 10⟩ ∧
    dias_desde ⟨2024, 1, 15⟩ (.ts ⟨2024, 1, 10⟩) = some 5 ∧
    dias_desde ⟨2024, 1, 10⟩ (.ts ⟨2024, 1, 15⟩) = some (-5) := by
  refine ⟨fun hoje => ⟨rfl, rfl⟩, fun hoje d => rfl, ?_, by decide, by decide,
    by decide⟩
  intro hoje v d hts hp
  have hv : ¬(v = .null ∨ v = .str "") := by
    rintro (rfl | rfl) <;> simp [parse_date] at hp
  cases v with
  | ts d0 => exact absurd rfl (hts d0)
  | null => simp at hv
  | int n => simp [dias_desde, hv, hp]
  | str s =>
      have hs : ¬s = "" := fun h0 => hv (Or.inr (by rw [h0]))
      simp [dias_desde, hv, hp, hs]
  | dict m => simp [dias_desde, hv, hp]
  | list l => simp [dias_desde, hv, hp]

/-- Witness for C7: the parsable-value conjunct applied at the concrete
round-trip input of the claim, with today fixed at 2024-01-15. -/
theorem C7_days_since_difference_witness :
    dias_desde ⟨2024, 1, 15⟩ (.str "2024-01-10") =
      some (PDate.rataDie ⟨2024, 1, 15⟩ - PDate.rataDie ⟨2024, 1, 10⟩) :=
  C7_days_since_difference.2.2.1 ⟨2024, 1, 15⟩ (.str "2024-01-10")
    ⟨2024, 1, 10⟩ (fun d0 h => Value.noConfusion h) (by decide)

/-- Claim C2 counterexample: a status block whose first candidate field
"descricaoSituacao" is present and non-null (the empty string) does not
win the chain; the code skips it because it is falsy and resolves the
second candidate "Arquivada" instead. -/
theorem C2_first_nonnull_counterexample :
    Fields.lookup
        (Fields.ofList [("descricaoSituacao", .str ""),
                        ("situacao", .str "Arquivada")])
        "descricaoSituacao" = some (.str "") ∧
    (Value.str "" ≠ Value.null) ∧
    resolveSituacao (.dict (Fields.ofList
        [("descricaoSituacao", .str ""), ("situacao", .str "Arquivada")])) =
      .str "Arquivada" ∧
    df_proposicoes [Fields.ofList [("statusProposicao", .dict (Fields.ofList
        [("descricaoSituacao", .str ""), ("situacao", .str "Arquivada")]))]] =
      .ok ⟨canonicalColumns,
        [⟨.null, .null, .null, .null, .null, .str "", .str "Arquivada",
          .null, none, .null, .null, .str ""⟩]⟩ ∧
    Value.str "Arquivada" ≠ Value.str "" := by
  refine ⟨by decide, by decide, by decide, by decide, by decide⟩

/-- Claim C2 (amended): every declared fallback chain resolves to the
value of the first candidate that is present and truthy — a candidate
that is present but falsy (None, empty string, zero, empty container) is
skipped exactly like a missing one — and to the value of the last
candidate (or the declared terminal default) when no candidate is
truthy; later candidates after a truthy one are ignored. In particular a
status block with both "descricaoSituacao": "Em tramitação" and
"situacao": "Arquivada" resolves status_description to "Em tramitação". -/
theorem C2_fallback_first_truthy_wins :
    (∀ p, resolveId p = firstTruthy [rget p "id", rget p "idProposicao"]) ∧
    (∀ p, resolveSiglaTipo p =
        firstTruthy [rget p "siglaTipo", rget p "sigla_tipo"]) ∧
    (∀ p, resolveNumero p =
        firstTruthy [rget p "numero", rget p "numProposicao", rget p "num"]) ∧
    (∀ p, resolveAno p = firstTruthy [rget p "ano", rget p "anoProposicao"]) ∧
    (∀ p, resolveStatus p =
        firstTruthy [rget p "statusProposicao", rget p "status_proposicao",
                     rget p "ultimoStatus", .dict .nil]) ∧
    (∀ m, resolveSituacao (.dict m) =
        firstTruthy [rget m "descricaoSituacao", rget m "situacao",
                     rget m "descricaoTramitacao"]) ∧
    (∀ m, resolveTramitacao (.dict m) =
        firstTruthy [rget m "descricaoTramitacao", rget m "apreciacao"]) ∧
    (∀ m, resolveDataStatusRaw (.dict m) =
        firstTruthy [rget m "dataHora", rget m "data",
                     rget m "dataUltimoDespacho"]) ∧
    (∀ p, resolveUriAutores p =
        firstTruthy [rget p "uriAutores", rget p "uri_autores"]) ∧
    (∀ p, pyOr (resolveEmenta p) (resolveEmentaDet p) =
        firstTruthy [rget p "ementa", rget p "ementaDetalhada",
                     rget p "ementa_detalhada", .str ""]) ∧
    df_proposicoes [Fields.ofList [("statusProposicao", .dict (Fields.ofList
        [("descricaoSituacao", .str "Em tramitação"),
         ("situacao", .str "Arquivada")]))]] =
      .ok ⟨canonicalColumns,
        [⟨.null, .null, .null, .null, .null, .str "", .str "Em tramitação",
          .null, none, .null, .null, .str ""⟩]⟩ := by
  refine ⟨fun p => (firstTruthy_pair _ _).symm,
          fun p => (firstTruthy_pair _ _).symm,
          fun p => (firstTruthy_triple _ _ _).symm,
          fun p => (firstTruthy_pair _ _).symm,
          fun p => (firstTruthy_quad _ _ _ _).symm,
          fun m => ?_, fun m => ?_, fun m => ?_,
          fun p => (firstTruthy_pair _ _).symm,
          fun p => ?_, by decide⟩
  · rw [resolveSituacao, safe_get_dict_single, safe_get_dict_single,
        safe_get_dict_single, firstTruthy_triple]
  · rw [resolveTramitacao, safe_get_dict_single, safe_get_dict_single,
        firstTruthy_pair]
  · rw [resolveDataStatusRaw, safe_get_dict_single, safe_get_dict_single,
        safe_get_dict_single, firstTruthy_triple]
  · rw [resolveEmenta, resolveEmentaDet, firstTruthy_quad]
    by_cases he : truthy (rget p "ementa") = true
    · rw [pyOr_truthy _ he, pyOr_truthy _ he]
    · have he' : truthy (rget p "ementa") = false := by
        revert he; cases truthy (rget p "ementa") <;> simp
      rw [pyOr_falsy _ he',
          pyOr_falsy _ (show truthy (Value.str "") = false from rfl),
          pyOr_falsy _ he']

/-- Claim C3: the derived label is non-null exactly when the resolved
type code, number and year are all truthy, and then equals the formatted
string `"TYPE NUMBER/YEAR"`; every successful row carries that label;
the record with siglaTipo PL, numero 1234 and ano 2024 labels
"PL 1234/2024", and the same record without ano labels None. -/
theorem C3_label_iff_components :
    (∀ st num yr, resolveRotulo st num yr ≠ .null ↔
        (truthy st = true ∧ truthy num = true ∧ truthy yr = true)) ∧
    (∀ st num yr, truthy st = true → truthy num = true → truthy yr = true →
        resolveRotulo st num yr =
          .str (pyStr st ++ " " ++ pyStr num ++ "/" ++ pyStr yr)) ∧
    (∀ p r, procRow p = .ok r →
        r.rotulo =
          resolveRotulo (resolveSiglaTipo p) (resolveNumero p) (resolveAno p)) ∧
    df_proposicoes [Fields.ofList
        [("siglaTipo", .str "PL"), ("numero", .int 1234), ("ano", .int 2024)]] =
      .ok ⟨canonicalColumns,
        [⟨.null, .str "PL", .int 1234, .int 2024, .str "PL 1234/2024",
          .str "", .null, .null, none, .null, .null, .str ""⟩]⟩ ∧
    df_proposicoes [Fields.ofList
        [("siglaTipo", .str "PL"), ("numero", .int 1234)]] =
      .ok ⟨canonicalColumns,
        [⟨.null, .str "PL", .int 1234, .null, .null, .str "", .null, .null,
          none, .null, .null, .str ""⟩]⟩ := by
  refine ⟨?_, ?_, ?_, by decide, by decide⟩
  · intro st num yr
    constructor
    · intro hne
      by_cases h : (truthy st && truthy num && truthy yr) = true
      · simpa [Bool.and_eq_true, and_assoc] using h
      · exact absurd (by simp [resolveRotulo, h]) hne
    · rintro ⟨h1, h2, h3⟩
      simp [resolveRotulo, h1, h2, h3]
  · intro st num yr h1 h2 h3
    simp [resolveRotulo, h1, h2, h3]
  · intro p r h
    unfold procRow at h
    cases hc : coerceId (resolveId p) with
    | error e => rw [hc] at h; simp at h
    | ok idVal =>
        rw [hc] at h
        simp only [Except.ok.injEq] at h
        rw [← h]

/-- Witness for C3: the formatting conjunct applied at the concrete
components of the example record. -/
theorem C3_label_iff_components_witness :
    resolveRotulo (.str "PL") (.int 1234) (.int 2024) =
      .str (pyStr (.str "PL") ++ " " ++ pyStr (.int 1234) ++ "/" ++
            pyStr (.int 2024)) :=
  C3_label_iff_components.2.1 (.str "PL") (.int 1234) (.int 2024)
    (by decide) (by decide) (by decide)

/-- Claim C8 counterexample: a record whose resolved id is present and
non-null but zero (idProposicao = 0) keeps id 0 in the output row, yet
its link is not built from the id: it falls back to the uri. -/
theorem C8_link_counterexample :
    df_proposicoes [Fields.ofList
        [("idProposicao", .int 0), ("uri", .str "https://x")]] =
      .ok ⟨canonicalColumns,
        [⟨.int 0, .null, .null, .null, .null, .str "", .null, .null, none,
          .str "https://x", .null, .str "https://x"⟩]⟩ ∧
    (Value.int 0 ≠ Value.null) ∧
    (Value.str "https://x" ≠ .str (fichaUrlBase ++ pyStr (Value.int 0))) ∧
    strContains "https://x" "0" = false := by
  refine ⟨by decide, by decide, by decide, by decide⟩

/-- Claim C8 (amended): the derived link is the fixed-pattern permalink
embedding the resolved id whenever the id is truthy (present and
non-zero); when the id is absent or falsy, the link is the source uri
when that is truthy, and the empty string otherwise; every successful
row carries that link. A record with id 555 and no uri links to the
permalink containing "555"; a record with no id and uri "https://x"
links to "https://x"; a record with neither links to "". -/
theorem C8_link_from_truthy_id :
    (∀ idv uriv, truthy idv = true →
        resolveLink idv uriv = .str (fichaUrlBase ++ pyStr idv)) ∧
    (∀ idv uriv, truthy idv = false → truthy uriv = true →
        resolveLink idv uriv = uriv) ∧
    (∀ idv uriv, truthy idv = false → truthy uriv = false →
        resolveLink idv uriv = .str "") ∧
    (∀ p r, procRow p = .ok r →
        r.link = resolveLink (resolveId p) (resolveUri p)) ∧
    strContains (fichaUrlBase ++ pyStr (Value.int 555)) "555" = true ∧
    df_proposicoes [Fields.ofList [("id", .int 555)]] =
      .ok ⟨canonicalColumns,
        [⟨.int 555, .null, .null, .null, .null, .str "", .null, .null, none,
          .null, .null, .str (fichaUrlBase ++ "555")⟩]⟩ ∧
    df_proposicoes [Fields.ofList [("uri", .str "https://x")]] =
      .ok ⟨canonicalColumns,
        [⟨.null, .null, .null, .null, .null, .str "", .null, .null, none,
          .str "https://x", .null, .str "https://x"⟩]⟩ ∧
    df_proposicoes [Fields.nil] =
      .ok ⟨canonicalColumns,
        [⟨.null, .null, .null, .null, .null, .str "", .null, .null, none,
          .null, .null, .str ""⟩]⟩ := by
  refine ⟨?_, ?_, ?_, ?_, by decide, by decide, by decide, by decide⟩
  · intro idv uriv h
    simp [resolveLink, h]
  · intro idv uriv h hu
    simp [resolveLink, h, pyOr, hu]
  · intro idv uriv h hu
    simp [resolveLink, h, pyOr, hu]
  · intro p r h
    unfold procRow at h
    cases hc : coerceId (resolveId p) with
    | error e => rw [hc] at h; simp at h
    | ok idVal =>
        rw [hc] at h
        simp only [Except.ok.injEq] at h
        rw [← h]

/-- Witness for C8: the truthy-id conjunct applied at the concrete id of
the claim example. -/
theorem C8_link_from_truthy_id_witness :
    resolveLink (.int 555) .null = .str (fichaUrlBase ++ pyStr (.int 555)) :=
  C8_link_from_truthy_id.1 (.int 555) .null (by decide)

/-- Whether a value is a string. -/
def isStrValue : Value → Bool
  | .str _ => true
  | _ => false

/-- Spec-side role predicate: the normalized role of an author record
contains the elected-representative substring "deputado" after
lower-casing (a missing or falsy role normalizes to the empty string and
never matches). -/
def roleMatches (a : Record) : Bool :=
  match pyOr (rget a "tipo") (.str "") with
  | .str s => strContains (lowerStr s) "deputado"
  | _ => false

/-- The scan of extrair_autor_principal returns exactly the first
role-matching author, provided every normalized role is a string (so the
lower-casing cannot raise). -/
theorem findDeputado_eq_find (autores : List Record)
    (h : ∀ a ∈ autores, isStrValue (pyOr (rget a "tipo") (.str "")) = true) :
    findDeputado autores = .ok (autores.find? roleMatches) := by
  induction autores with
  | nil => rfl
  | cons a rest ih =>
    have ha := h a (List.mem_cons_self a rest)
    cases hm : pyOr (rget a "tipo") (.str "") with
    | str s =>
      by_cases hd : strContains (lowerStr s) "deputado" = true
      · simp [findDeputado, tipoLowered, hm, hd, List.find?_cons,
              roleMatches]
      · have hd' : strContains (lowerStr s) "deputado" = false := by
          revert hd; cases strContains (lowerStr s) "deputado" <;> simp
        simp [findDeputado, tipoLowered, hm, hd', List.find?_cons,
              roleMatches]
        exact ih (fun a' ha' => h a' (List.mem_cons_of_mem a ha'))
    | null => rw [hm] at ha; simp [isStrValue] at ha
    | int n => rw [hm] at ha; simp [isStrValue] at ha
    | dict m => rw [hm] at ha; simp [isStrValue] at ha
    | list l => rw [hm] at ha; simp [isStrValue] at ha
    | ts d => rw [hm] at ha; simp [isStrValue] at ha

theorem roleMatches_nil : roleMatches Fields.nil = false := by decide

/-- A role-matching record is a non-empty dict (its role lookup was
truthy). -/
theorem roleMatches_isEmpty_false {d : Record} (h : roleMatches d = true) :
    d.isEmpty = false := by
  cases d with
  | nil => exact absurd h (by rw [roleMatches_nil]; simp)
  | cons k v rest => rfl

/-- Claim C4: extrair_autor_principal returns the all-null summary on
the empty list without raising; on any author list whose normalized
roles are strings it chooses the first entry whose lower-cased role
contains "deputado", falling back to the first entry of the list when no
entry matches; and on the claim example the Deputado entry wins over the
positionally first Comissão entry, giving name "Y". -/
theorem C4_principal_author_selection :
    extrair_autor_principal [] = .ok ⟨.null, .null, .null, .null⟩ ∧
    (∀ a0 rest,
        (∀ a ∈ a0 :: rest,
            isStrValue (pyOr (rget a "tipo") (.str "")) = true) →
        extrair_autor_principal (a0 :: rest) =
          .ok (camposAutor (((a0 :: rest).find? roleMatches).getD a0))) ∧
    extrair_autor_principal
        [Fields.ofList [("tipo", .str "Comissão"), ("nome", .str "X")],
         Fields.ofList [("tipo", .str "Deputado"), ("nome", .str "Y")]] =
      .ok ⟨.str "Y", .null, .null, .str "Deputado"⟩ := by
  refine ⟨rfl, ?_, by decide⟩
  intro a0 rest h
  unfold extrair_autor_principal
  rw [findDeputado_eq_find _ h]
  cases hf : (a0 :: rest).find? roleMatches with
  | none => simp [hf]
  | some d =>
      have hd : roleMatches d = true := List.find?_some hf
      simp [hf, roleMatches_isEmpty_false hd]

/-- Witness for C4: the selection conjunct applied at a concrete
single-author list. -/
theorem C4_principal_author_selection_witness :
    extrair_autor_principal
        [Fields.ofList [("tipo", .str "Deputado"), ("nome", .str "Y")]] =
      .ok (camposAutor
        ((([Fields.ofList [("tipo", .str "Deputado"), ("nome", .str "Y")]]
            : List Record).find? roleMatches).getD
          (Fields.ofList [("tipo", .str "Deputado"), ("nome", .str "Y")]))) :=
  C4_principal_author_selection.2.1
    (Fields.ofList [("tipo", .str "Deputado"), ("nome", .str "Y")]) []
    (by decide)

/-- Whether an author record has no role field or a null one. -/
def tipoMissingOrNull (a : Record) : Bool :=
  match a.lookup "tipo" with
  | none => true
  | some .null => true
  | some _ => false

/-- A missing or null role reads back as None. -/
theorem rget_tipo_of_missing (a : Record) (h : tipoMissingOrNull a = true) :
    rget a "tipo" = .null := by
  unfold tipoMissingOrNull at h
  unfold rget
  cases hm : a.lookup "tipo" with
  | none => rfl
  | some v => rw [hm] at h; cases v <;> simp_all

/-- Claim C10: the role scan tolerates author entries whose "tipo" field
is missing or null; such a role normalizes to the empty string, so the
scan does not raise and the entry never matches the
elected-representative preference; and a non-empty list made only of
such entries still resolves to its positional first entry. -/
theorem C10_missing_role_tolerated :
    (∀ a, tipoMissingOrNull a = true →
        tipoLowered a = .ok "" ∧ roleMatches a = false) ∧
    (∀ a0 rest, (∀ a ∈ a0 :: rest, tipoMissingOrNull a = true) →
        extrair_autor_principal (a0 :: rest) = .ok (camposAutor a0)) := by
  constructor
  · intro a h
    have hr := rget_tipo_of_missing a h
    constructor
    · unfold tipoLowered
      rw [hr]
      decide
    · unfold roleMatches
      rw [hr]
      decide
  · intro a0 rest h
    have hall : ∀ a ∈ a0 :: rest,
        isStrValue (pyOr (rget a "tipo") (.str "")) = true := by
      intro a ha
      rw [rget_tipo_of_missing a (h a ha)]
      rfl
    have hnone : (a0 :: rest).find? roleMatches = none := by
      rw [List.find?_eq_none]
      intro x hx
      unfold roleMatches
      rw [rget_tipo_of_missing x (h x hx)]
      decide
    unfold extrair_autor_principal
    rw [findDeputado_eq_find _ hall, hnone]

/-- Witness for C10: a two-entry list whose entries carry no usable
role; the first entry is chosen and nothing raises. -/
theorem C10_missing_role_tolerated_witness :
    extrair_autor_principal
        [Fields.ofList [("nome", .str "Fulano")],
         Fields.ofList [("tipo", .null), ("nome", .str "Beltrano")]] =
      .ok (camposAutor (Fields.ofList [("nome", .str "Fulano")])) :=
  C10_missing_role_tolerated.2
    (Fields.ofList [("nome", .str "Fulano")])
    [Fields.ofList [("tipo", .null), ("nome", .str "Beltrano")]]
    (by decide)

/-- A record that carries one logical proposition using only the
first-choice field name of every fallback chain of df_proposicoes. -/
def firstChoiceRecord (n : Int) (sg num yr em sit tram dtv uriv ua : Value) :
    Record :=
  Fields.ofList
    [("id", .int n), ("siglaTipo", sg), ("numero", num), ("ano", yr),
     ("ementa", em), ("uri", uriv), ("uriAutores", ua),
     ("statusProposicao", .dict (Fields.ofList
        [("descricaoSituacao", sit), ("descricaoTramitacao", tram),
         ("dataHora", dtv)]))]

/-- The same logical proposition using only the second-choice field name
of every fallback chain of df_proposicoes. -/
def secondChoiceRecord (n : Int) (sg num yr em sit tram dtv uriv ua : Value) :
    Record :=
  Fields.ofList
    [("idProposicao", .int n), ("sigla_tipo", sg), ("numProposicao", num),
     ("anoProposicao", yr), ("ementaDetalhada", em), ("uriProposicao", uriv),
     ("uri_autores", ua),
     ("status_proposicao", .dict (Fields.ofList
        [("situacao", sit), ("apreciacao", tram), ("data", dtv)]))]

theorem ne_null_of_truthy {v : Value} (h : truthy v = true) : v ≠ .null :=
  fun hv => by rw [hv] at h; exact Bool.noConfusion h

theorem truthy_dict_cons (k : String) (v : Value) (r : Fields) :
    truthy (.dict (.cons k v r)) = true := rfl

theorem truthy_empty_str : truthy (.str "") = false := rfl

theorem truthy_dict_nil : truthy (.dict .nil) = false := rfl

/-- A one-record input normalizes to a one-row frame of its processed
row. -/
theorem df_singleton (p : Record) (r : Row) (h : procRow p = .ok r) :
    df_proposicoes [p] = .ok ⟨canonicalColumns, [fixDataStatus r]⟩ := by
  simp [df_proposicoes, mapRows, h]

/-- Claim C5: two records carrying the same logical data, one populated
only under the first-choice field names and the other only under the
second-choice field names of every fallback chain, normalize to
identical Propositions (the populated values being truthy, as a falsy
value is what the chains treat as absent). -/
theorem C5_first_and_second_choice_agree
    (n : Int) (sg num yr em sit tram dtv uriv ua : Value)
    (hn : n ≠ 0) (hsg : truthy sg = true) (hnum : truthy num = true)
    (hyr : truthy yr = true) (hem : truthy em = true)
    (hsit : truthy sit = true) (htram : truthy tram = true)
    (hdt : truthy dtv = true) (huri : truthy uriv = true)
    (hua : truthy ua = true) :
    df_proposicoes [firstChoiceRecord n sg num yr em sit tram dtv uriv ua] =
    df_proposicoes [secondChoiceRecord n sg num yr em sit tram dtv uriv ua] := by
  have htn : truthy (Value.int n) = true := by simp [truthy, hn]
  have hsitne := ne_null_of_truthy hsit
  have htramne := ne_null_of_truthy htram
  have hdtne := ne_null_of_truthy hdt
  have h1 : procRow (firstChoiceRecord n sg num yr em sit tram dtv uriv ua) =
      .ok ⟨.int n, sg, num, yr, resolveRotulo sg num yr, em, sit, tram,
           parse_date dtv, uriv, ua, .str (fichaUrlBase ++ pyStr (.int n))⟩ := by
    simp [procRow, firstChoiceRecord, resolveId, resolveSiglaTipo,
      resolveNumero, resolveAno, resolveUri, resolveStatus, resolveSituacao,
      resolveTramitacao, resolveDataStatusRaw, resolveUriAutores,
      resolveEmenta, resolveEmentaDet, resolveLink, coerceId, rget,
      Fields.ofList, Fields.lookup, safe_get, safeGetAux, vget, pyOr, pyInt,
      truthy_null, truthy_dict_cons, truthy_empty_str, truthy_dict_nil,
      htn, hsg, hnum, hyr, hem, hsit, htram, hdt, huri, hua,
      hsitne, htramne, hdtne]
  have h2 : procRow (secondChoiceRecord n sg num yr em sit tram dtv uriv ua) =
      .ok ⟨.int n, sg, num, yr, resolveRotulo sg num yr, em, sit, tram,
           parse_date dtv, uriv, ua, .str (fichaUrlBase ++ pyStr (.int n))⟩ := by
    simp [procRow, secondChoiceRecord, resolveId, resolveSiglaTipo,
      resolveNumero, resolveAno, resolveUri, resolveStatus, resolveSituacao,
      resolveTramitacao, resolveDataStatusRaw, resolveUriAutores,
      resolveEmenta, resolveEmentaDet, resolveLink, coerceId, rget,
      Fields.ofList, Fields.lookup, safe_get, safeGetAux, vget, pyOr, pyInt,
      truthy_null, truthy_dict_cons, truthy_empty_str, truthy_dict_nil,
      htn, hsg, hnum, hyr, hem, hsit, htram, hdt, huri, hua,
      hsitne, htramne, hdtne]
  rw [df_singleton _ _ h1, df_singleton _ _ h2]

/-- Witness for C5: the two spellings of a concrete proposition
normalize identically. -/
theorem C5_first_and_second_choice_agree_witness :
    df_proposicoes [firstChoiceRecord 42 (.str "PL") (.int 1234) (.int 2024)
        (.str "Ementa x") (.str "Em tramitação") (.str "Pronta para pauta")
        (.str "2024-01-10") (.str "https://u") (.str "https://a")] =
    df_proposicoes [secondChoiceRecord 42 (.str "PL") (.int 1234) (.int 2024)
        (.str "Ementa x") (.str "Em tramitação") (.str "Pronta para pauta")
        (.str "2024-01-10") (.str "https://u") (.str "https://a")] :=
  C5_first_and_second_choice_agree 42 (.str "PL") (.int 1234) (.int 2024)
    (.str "Ementa x") (.str "Em tramitação") (.str "Pronta para pauta")
    (.str "2024-01-10") (.str "https://u") (.str "https://a")
    (by decide) (by decide) (by decide) (by decide) (by decide) (by decide)
    (by decide) (by decide) (by decide) (by decide)
